import Mathlib

/-!
Verification development for the Healthcare Database Request Assistant
(SQL-Assistant).  The definitions below are a shallow embedding of the
Python source: `src/data_handlers/document_loader.py` (document loading,
chunk splitting via langchain's `RecursiveCharacterTextSplitter`,
vector-store creation/persistence/reset), `src/utils/api_validator.py`
(API-key validation), `src/models/llm_chain.py` (sentinel error string),
and the request-processing / history logic of `main.py`.

Python strings are modelled as `List Char`; Streamlit UI calls
(`st.error`, `st.warning`, `st.info`, `st.success`) are modelled as an
accumulated message list; caught Python exceptions from external
libraries (file system, embedding backends) are modelled by explicit
fault parameters (`Option String` carrying the exception text, `none`
meaning the operation succeeds).
-/

/-- Python text, modelled character by character. -/
abbrev Text := List Char

/-- A Streamlit UI message, produced by `st.error` / `st.warning` /
`st.info` / `st.success`. -/
inductive Msg where
  | error (s : String)
  | warning (s : String)
  | info (s : String)
  | success (s : String)
deriving DecidableEq, Repr

/-- Source metadata attached to a loaded PDF page
(langchain attaches the file path and page number). -/
structure DocMeta where
  source : String
  page : Nat
deriving DecidableEq, Repr

/-- A langchain `Document`: raw page content plus source metadata. -/
structure Document where
  page_content : Text
  metadata : DocMeta
deriving DecidableEq, Repr

/-- The state of the ingestion directory as seen by
`PyPDFDirectoryLoader`: either reading it raises an exception (with the
exception text), or it is readable and yields a (possibly empty) list of
page documents. -/
inductive DirState where
  | unreadable (errMsg : String)
  | readable (docs : List Document)
deriving DecidableEq, Repr

/-- `PyPDFDirectoryLoader(directory_path).load()`: raises on an
unreadable path, otherwise returns the loaded page documents (empty when
no PDF file matches). -/
def PyPDFDirectoryLoader_load (dir : DirState) : Except String (List Document) :=
  match dir with
  | .unreadable e => .error e
  | .readable docs => .ok docs

/-- `load_documents` (document_loader.py lines 16-32): wraps the loader
in try/except; on any exception it shows `st.error` and returns the
empty list. -/
def load_documents (dir : DirState) : List Document × List Msg :=
  match PyPDFDirectoryLoader_load dir with
  | .ok docs => (docs, [])
  | .error e => ([], [.error ("Error loading documents: " ++ e)])

/-- Claim C1 as stated by the spec: the empty result is returned only
when the directory is readable (an unreadable directory is supposed to
fail instead of returning an empty sequence). -/
def claimC1Prop : Prop :=
  ∀ d : DirState, (load_documents d).1 = [] → ∃ docs, d = DirState.readable docs

/-- C1 (counterexample): `load_documents` on an unreadable directory
does not fail; it catches the exception and returns the empty list, so
an empty result does not imply the path was readable. -/
theorem load_documents_empty_result_not_only_when_readable : ¬ claimC1Prop := by
  intro h
  obtain ⟨docs, hd⟩ := h (DirState.unreadable "Permission denied") rfl
  cases hd

/-- C1 (amended, proved): `load_documents` never fails.  On an
unreadable path it reports an error message and returns the empty
sequence; on a readable path it returns the loaded documents unchanged
with no message — so an empty result arises both from an unreadable path
(with an error message) and from a readable path with no matching files
(with no message). -/
theorem load_documents_total_behavior (e : String) (docs : List Document) :
    load_documents (DirState.unreadable e)
      = ([], [Msg.error ("Error loading documents: " ++ e)])
    ∧ load_documents (DirState.readable docs) = (docs, []) :=
  ⟨rfl, rfl⟩

/-!
## Chunk splitting (`process_documents`, document_loader.py lines 35-51)

`process_documents` instantiates langchain's
`RecursiveCharacterTextSplitter(chunk_size=CHUNK_SIZE,
chunk_overlap=CHUNK_OVERLAP, is_separator_regex=False)` and calls
`split_documents`.  That splitter uses the default separators
`["\n\n", "\n", " ", ""]`, `keep_separator=True` (so the separator is
attached to the front of the following piece and the merge separator is
the empty string), length function `len`, and
`strip_whitespace=True`.  The embedding below instantiates the
recursive `_split_text` at that concrete four-element separator list,
one definition per separator level (`splitText0` is the entry point
`_split_text(text, ["\n\n", "\n", " ", ""])`).
-/

/-- `CHUNK_SIZE` (config.py). -/
def CHUNK_SIZE : Nat := 500

/-- `CHUNK_OVERLAP` (config.py). -/
def CHUNK_OVERLAP : Nat := 100

/-- Total character length of a list of splits (the running `total` of
`_merge_splits`; the merge separator is empty, so separators add no
length). -/
def sumLen (l : List Text) : Nat := (l.map List.length).sum

/-- Python `str.strip()`: remove leading and trailing whitespace. -/
def stripText (t : Text) : Text :=
  ((t.dropWhile Char.isWhitespace).reverse.dropWhile Char.isWhitespace).reverse

/-- `TextSplitter._join_docs(docs, "")`: concatenate, strip whitespace,
and drop the chunk entirely if it is empty. -/
def joinDocs (docs : List Text) : Option Text :=
  if stripText docs.flatten = [] then none else some (stripText docs.flatten)

/-- The pop loop inside `_merge_splits`: after flushing a chunk, drop
leading splits from `current_doc` while the retained total exceeds
`chunk_overlap`, or while it would make the next chunk exceed
`chunk_size` when the incoming split (of length `len`) is added. -/
def popWhile (len : Nat) : List Text → Nat → List Text × Nat
  | [], total => ([], total)
  | d :: rest, total =>
    if total > CHUNK_OVERLAP ∨ (total + len > CHUNK_SIZE ∧ total > 0) then
      popWhile len rest (total - d.length)
    else (d :: rest, total)

/-- The loop state of `TextSplitter._merge_splits`: emitted chunks,
the pending splits `current_doc`, and their running length `total`. -/
structure MergeState where
  docs : List Text
  current : List Text
  total : Nat
deriving DecidableEq, Repr

/-- Flushing the pending chunk: `_join_docs(current_doc, "")` appended
to the emitted chunks when it is non-empty (this is both the flush
inside the loop and the final flush after it). -/
def flushMerge (st : MergeState) : List Text :=
  match joinDocs st.current with
  | some doc => st.docs ++ [doc]
  | none => st.docs

/-- One iteration of the `for d in splits` loop of `_merge_splits`
(with the empty merge separator): flush the pending chunk when adding
`d` would exceed `chunk_size`, retain an overlap tail, then append
`d`. -/
def mergeStep (st : MergeState) (d : Text) : MergeState :=
  if st.total + d.length > CHUNK_SIZE then
    if st.current = [] then
      { st with current := [d], total := st.total + d.length }
    else
      { docs := flushMerge st,
        current := (popWhile d.length st.current st.total).1 ++ [d],
        total := (popWhile d.length st.current st.total).2 + d.length }
  else
    { st with current := st.current ++ [d], total := st.total + d.length }

/-- `TextSplitter._merge_splits(splits, "")`: fold the merge step over
the splits and flush the final pending chunk. -/
def mergeSplits (splits : List Text) : List Text :=
  flushMerge (splits.foldl mergeStep ⟨[], [], 0⟩)

/-- Split `text` at every occurrence of the non-empty separator `sep`
(Python `re.split` on the escaped separator, occurrences do not
overlap, pieces may be empty).  The `fuel` argument only drives
structural recursion; it is initialized to more than the text length,
which every recursive call preserves as an upper bound. -/
def splitOnAux (sep : Text) : Nat → Text → Text → List Text
  | 0, _, cur => [cur.reverse]
  | _ + 1, [], cur => [cur.reverse]
  | fuel + 1, c :: rest, cur =>
    if sep.isPrefixOf (c :: rest) then
      cur.reverse :: splitOnAux sep fuel ((c :: rest).drop sep.length) []
    else
      splitOnAux sep fuel rest (c :: cur)

/-- Split on a non-empty separator, keeping no separators yet. -/
def splitOnList (sep : Text) (text : Text) : List Text :=
  splitOnAux sep (text.length + 1) text []

/-- `_split_text_with_regex(text, sep, keep_separator=True)`: for the
empty separator, split into single characters; otherwise split on the
separator and re-attach each separator occurrence to the front of the
following piece, finally dropping empty pieces. -/
def splitTextWithSep (sep : Text) (text : Text) : List Text :=
  if sep = [] then text.map (fun c => [c])
  else
    match splitOnList sep text with
    | [] => []
    | p :: ps => (p :: ps.map (fun q => sep ++ q)).filter (fun s => s ≠ [])

/-- The `for s in splits` loop of `RecursiveCharacterTextSplitter.
_split_text`: accumulate splits shorter than `chunk_size` into
`_good_splits`; on an over-long split, first merge the accumulated good
splits, then either append the long split as-is (when no further
separators remain, `recurse = none`) or split it recursively at the
next separator level (`recurse = some f`). -/
def goSplits (recurse : Option (Text → List Text)) :
    List Text → List Text → List Text → List Text
  | [], final, good =>
      final ++ (if good = [] then [] else mergeSplits good)
  | s :: rest, final, good =>
    if s.length < CHUNK_SIZE then
      goSplits recurse rest final (good ++ [s])
    else
      let f1 := final ++ (if good = [] then [] else mergeSplits good)
      let f2 := f1 ++ (match recurse with | none => [s] | some f => f s)
      goSplits recurse rest f2 []

/-- Python `re.search` of a literal pattern / substring containment:
does `sub` occur contiguously inside the text? -/
def containsSeq (sub : Text) : Text → Bool
  | [] => sub.isEmpty
  | c :: rest => sub.isPrefixOf (c :: rest) || containsSeq sub rest

/-- Separator `"\n\n"`. -/
def sepPar : Text := ['\n', '\n']

/-- Separator `"\n"`. -/
def sepLine : Text := ['\n']

/-- Separator `" "`. -/
def sepSpace : Text := [' ']

/-- `_split_text(text, [""])`: character-level split (the last
separator level; `new_separators` is empty, so no recursion). -/
def splitText3 (text : Text) : List Text :=
  goSplits none (splitTextWithSep [] text) [] []

/-- `_split_text(text, [" ", ""])`: split on spaces when the text
contains one (recursing at the character level for over-long words),
otherwise fall through to the character level. -/
def splitText2 (text : Text) : List Text :=
  if containsSeq sepSpace text then
    goSplits (some splitText3) (splitTextWithSep sepSpace text) [] []
  else splitText3 text

/-- `_split_text(text, ["\n", " ", ""])`. -/
def splitText1 (text : Text) : List Text :=
  if containsSeq sepLine text then
    goSplits (some splitText2) (splitTextWithSep sepLine text) [] []
  else if containsSeq sepSpace text then
    goSplits (some splitText3) (splitTextWithSep sepSpace text) [] []
  else splitText3 text

/-- `split_text(text)` = `_split_text(text, ["\n\n", "\n", " ", ""])`:
the public entry of the configured splitter. -/
def splitText0 (text : Text) : List Text :=
  if containsSeq sepPar text then
    goSplits (some splitText1) (splitTextWithSep sepPar text) [] []
  else if containsSeq sepLine text then
    goSplits (some splitText2) (splitTextWithSep sepLine text) [] []
  else if containsSeq sepSpace text then
    goSplits (some splitText3) (splitTextWithSep sepSpace text) [] []
  else splitText3 text

/-- `process_documents` (document_loader.py lines 35-51) =
`split_documents`: split each document's page content and wrap each chunk
in a `Document` carrying the source document's metadata. -/
def process_documents (docs : List Document) : List Document :=
  docs.flatMap (fun d => (splitText0 d.page_content).map
    (fun c => { page_content := c, metadata := d.metadata }))

/-- Adjacent-chunk exact-overlap property at position `i` of the chunk
list that the configured splitter produces from one document text: the
trailing `CHUNK_OVERLAP` characters of chunk `i` equal the leading
`CHUNK_OVERLAP` characters of chunk `i + 1`. -/
def chunkOverlapEqAt (t : Text) (i : Nat) : Prop :=
  ((splitText0 t).getD i []).drop (((splitText0 t).getD i []).length - CHUNK_OVERLAP)
    = ((splitText0 t).getD (i + 1) []).take CHUNK_OVERLAP

/-- Claim C2 as stated by the spec: every produced chunk is at most
`CHUNK_SIZE` characters long, and any two adjacent chunks from the same
document agree exactly on a `CHUNK_OVERLAP`-character overlap region. -/
def claimC2Prop : Prop :=
  (∀ docs : List Document, ∀ c ∈ process_documents docs,
      c.page_content.length ≤ CHUNK_SIZE)
  ∧ ∀ t : Text, ∀ i : Nat, i + 1 < (splitText0 t).length → chunkOverlapEqAt t i

/-- A ten-character word. -/
def exWord : Text := ['a','b','c','d','e','f','g','h','i']

/-- A 599-character document text: 60 nine-character words separated by
single spaces. -/
def exOverlapText : Text := exWord ++ (List.replicate 59 (' ' :: exWord)).flatten

set_option maxRecDepth 8000 in
/-- C2 (counterexample): on the 599-character space-separated text the
configured splitter produces two chunks (of lengths 499 and 199), and
the trailing 100 characters of the first chunk differ from the leading
100 characters of the second (the merge loop retains whole
space-delimited splits within the overlap budget and then strips a
leading space, so the overlap is approximate, not an exact
suffix/prefix match). -/
theorem splitText0_overlap_not_exact : ¬ claimC2Prop := by
  intro h
  exact absurd (h.2 exOverlapText 0 (by decide))
    (by unfold chunkOverlapEqAt; decide)

/-- Length of the dropWhile result never exceeds the input length. -/
theorem dropWhile_length_le (p : Char → Bool) (l : List Char) :
    (l.dropWhile p).length ≤ l.length := by
  induction l with
  | nil => simp
  | cons a l ih =>
    rw [List.dropWhile_cons]
    split
    · exact Nat.le_trans ih (Nat.le_succ _)
    · simp

/-- Stripping whitespace never lengthens a text. -/
theorem stripText_length_le (t : Text) : (stripText t).length ≤ t.length := by
  unfold stripText
  simp only [List.length_reverse]
  exact Nat.le_trans (dropWhile_length_le _ _)
    (by simpa using dropWhile_length_le Char.isWhitespace t)

theorem sumLen_nil : sumLen [] = 0 := rfl

theorem sumLen_cons (d : Text) (l : List Text) :
    sumLen (d :: l) = d.length + sumLen l := by
  simp [sumLen]

theorem sumLen_append_singleton (l : List Text) (d : Text) :
    sumLen (l ++ [d]) = sumLen l + d.length := by
  simp [sumLen]

/-- A joined (and stripped) chunk is no longer than the total length of
the splits it was built from. -/
theorem joinDocs_length_le (l : List Text) (doc : Text) (h : joinDocs l = some doc) :
    doc.length ≤ sumLen l := by
  unfold joinDocs at h
  split at h
  · exact absurd h (by simp)
  · cases h
    exact Nat.le_trans (stripText_length_le _) (by simp [sumLen, List.length_flatten])

/-- The pop loop of `_merge_splits` keeps `total` equal to the summed
length of the retained splits, and stops only when either the next
chunk would fit in `CHUNK_SIZE` or nothing is retained at all. -/
theorem popWhile_spec (len : Nat) (cur : List Text) :
    ∀ total, total = sumLen cur →
      (popWhile len cur total).2 = sumLen (popWhile len cur total).1
      ∧ ((popWhile len cur total).2 + len ≤ CHUNK_SIZE ∨ (popWhile len cur total).2 = 0) := by
  induction cur with
  | nil =>
    intro total h
    simp [popWhile, h, sumLen_nil]
  | cons d rest ih =>
    intro total h
    rw [popWhile]
    split
    · refine ih (total - d.length) ?_
      rw [h, sumLen_cons]
      omega
    · rename_i hstop
      refine ⟨h, ?_⟩
      push_neg at hstop
      omega

/-- The invariant of the `_merge_splits` fold: the running total is the
summed length of the pending splits, it never exceeds `CHUNK_SIZE`, and
every chunk emitted so far is at most `CHUNK_SIZE` characters. -/
def InvMerge (st : MergeState) : Prop :=
  st.total = sumLen st.current ∧ st.total ≤ CHUNK_SIZE
    ∧ ∀ c ∈ st.docs, c.length ≤ CHUNK_SIZE

/-- Flushing preserves chunk boundedness: under the invariant, every
chunk emitted by `flushMerge` is at most `CHUNK_SIZE` characters. -/
theorem flushMerge_bounded (st : MergeState) (h : InvMerge st) :
    ∀ c ∈ flushMerge st, c.length ≤ CHUNK_SIZE := by
  obtain ⟨htot, hle, hdocs⟩ := h
  intro c hc
  unfold flushMerge at hc
  split at hc
  · rename_i doc hjoin
    rcases List.mem_append.1 hc with hc | hc
    · exact hdocs c hc
    · rcases List.mem_singleton.1 hc with rfl
      exact Nat.le_trans (joinDocs_length_le _ _ hjoin) (htot ▸ hle)
  · exact hdocs c hc

theorem mergeStep_inv (st : MergeState) (d : Text)
    (hd : d.length < CHUNK_SIZE) (h : InvMerge st) : InvMerge (mergeStep st d) := by
  obtain ⟨htot, hle, hdocs⟩ := h
  unfold mergeStep
  split
  · rename_i hbig
    split
    · rename_i hnil
      rw [hnil, sumLen_nil] at htot
      omega
    · have hpop := popWhile_spec d.length st.current st.total htot
      refine ⟨?_, ?_, ?_⟩
      · simp only [sumLen_append_singleton]
        rw [hpop.1]
      · dsimp only
        rcases hpop.2 with hfit | hzero
        · exact hfit
        · rw [hzero]
          omega
      · exact flushMerge_bounded st ⟨htot, hle, hdocs⟩
  · refine ⟨?_, by dsimp only; omega, hdocs⟩
    dsimp only
    rw [sumLen_append_singleton, htot]

theorem foldl_mergeStep_inv (splits : List Text)
    (hsp : ∀ s ∈ splits, s.length < CHUNK_SIZE) :
    ∀ st, InvMerge st → InvMerge (splits.foldl mergeStep st) := by
  induction splits with
  | nil => intro st h; exact h
  | cons s rest ih =>
    intro st h
    exact ih (fun x hx => hsp x (List.mem_cons_of_mem _ hx))
      _ (mergeStep_inv st s (hsp s (List.mem_cons_self s rest)) h)

/-- Every chunk emitted by `_merge_splits` from splits that are each
shorter than `CHUNK_SIZE` is at most `CHUNK_SIZE` characters long. -/
theorem mergeSplits_bounded (splits : List Text)
    (hsp : ∀ s ∈ splits, s.length < CHUNK_SIZE) :
    ∀ c ∈ mergeSplits splits, c.length ≤ CHUNK_SIZE := by
  have hinv : InvMerge (splits.foldl mergeStep ⟨[], [], 0⟩) :=
    foldl_mergeStep_inv splits hsp _ ⟨rfl, by simp [CHUNK_SIZE], by simp⟩
  exact flushMerge_bounded _ hinv

/-- Every chunk produced by the split-processing loop at the last
separator level (no recursion) is at most `CHUNK_SIZE` characters long,
provided every split fits below `CHUNK_SIZE`. -/
theorem goSplits_none_bounded :
    ∀ splits final good,
      (∀ s ∈ splits, s.length < CHUNK_SIZE) →
      (∀ x ∈ final, x.length ≤ CHUNK_SIZE) →
      (∀ g ∈ good, g.length < CHUNK_SIZE) →
      ∀ c ∈ goSplits none splits final good, c.length ≤ CHUNK_SIZE := by
  intro splits
  induction splits with
  | nil =>
    intro final good _ hfin hgood c hc
    simp only [goSplits] at hc
    rcases List.mem_append.1 hc with hc | hc
    · exact hfin c hc
    · split at hc
      · cases hc
      · exact mergeSplits_bounded good hgood c hc
  | cons s rest ih =>
    intro final good hsp hfin hgood c hc
    simp only [goSplits] at hc
    split at hc
    · rename_i hs
      refine ih final (good ++ [s]) (fun x hx => hsp x (List.mem_cons_of_mem _ hx))
        hfin ?_ c hc
      intro g hg
      rcases List.mem_append.1 hg with hg | hg
      · exact hgood g hg
      · rcases List.mem_singleton.1 hg with rfl
        exact hs
    · rename_i hs
      exact absurd (hsp s (List.mem_cons_self s rest)) hs

/-- Every chunk produced by the split-processing loop at a recursive
separator level is at most `CHUNK_SIZE` characters long, provided the
chunks of the recursive splitter are. -/
theorem goSplits_some_bounded (f : Text → List Text)
    (hf : ∀ t, ∀ c ∈ f t, c.length ≤ CHUNK_SIZE) :
    ∀ splits final good,
      (∀ x ∈ final, x.length ≤ CHUNK_SIZE) →
      (∀ g ∈ good, g.length < CHUNK_SIZE) →
      ∀ c ∈ goSplits (some f) splits final good, c.length ≤ CHUNK_SIZE := by
  intro splits
  induction splits with
  | nil =>
    intro final good hfin hgood c hc
    simp only [goSplits] at hc
    rcases List.mem_append.1 hc with hc | hc
    · exact hfin c hc
    · split at hc
      · cases hc
      · exact mergeSplits_bounded good hgood c hc
  | cons s rest ih =>
    intro final good hfin hgood c hc
    simp only [goSplits] at hc
    split at hc
    · rename_i hs
      refine ih final (good ++ [s]) hfin ?_ c hc
      intro g hg
      rcases List.mem_append.1 hg with hg | hg
      · exact hgood g hg
      · rcases List.mem_singleton.1 hg with rfl
        exact hs
    · refine ih _ [] ?_ (by simp) c hc
      intro x hx
      rcases List.mem_append.1 hx with hx | hx
      · rcases List.mem_append.1 hx with hx | hx
        · exact hfin x hx
        · split at hx
          · cases hx
          · exact mergeSplits_bounded good hgood x hx
      · exact hf s x hx

/-- Character-level splits are all singletons. -/
theorem splitText3_bounded (t : Text) : ∀ c ∈ splitText3 t, c.length ≤ CHUNK_SIZE := by
  refine goSplits_none_bounded _ [] [] ?_ (by simp) (by simp)
  intro s hs
  unfold splitTextWithSep at hs
  rw [if_pos rfl] at hs
  obtain ⟨a, _, rfl⟩ := List.mem_map.1 hs
  simp [CHUNK_SIZE]

theorem splitText2_bounded (t : Text) : ∀ c ∈ splitText2 t, c.length ≤ CHUNK_SIZE := by
  unfold splitText2
  split
  · exact goSplits_some_bounded splitText3 splitText3_bounded _ [] [] (by simp) (by simp)
  · exact splitText3_bounded t

theorem splitText1_bounded (t : Text) : ∀ c ∈ splitText1 t, c.length ≤ CHUNK_SIZE := by
  unfold splitText1
  split
  · exact goSplits_some_bounded splitText2 splitText2_bounded _ [] [] (by simp) (by simp)
  · split
    · exact goSplits_some_bounded splitText3 splitText3_bounded _ [] [] (by simp) (by simp)
    · exact splitText3_bounded t

theorem splitText0_bounded (t : Text) : ∀ c ∈ splitText0 t, c.length ≤ CHUNK_SIZE := by
  unfold splitText0
  split
  · exact goSplits_some_bounded splitText1 splitText1_bounded _ [] [] (by simp) (by simp)
  · split
    · exact goSplits_some_bounded splitText2 splitText2_bounded _ [] [] (by simp) (by simp)
    · split
      · exact goSplits_some_bounded splitText3 splitText3_bounded _ [] [] (by simp) (by simp)
      · exact splitText3_bounded t

/-- C2 (amended, proved): every chunk produced by `process_documents`
with the configured `CHUNK_SIZE` and `CHUNK_OVERLAP` is at most
`CHUNK_SIZE` characters long.  (The second half of the original claim —
that the length-`CHUNK_OVERLAP` suffix of a chunk equals the prefix of
the next chunk exactly — is refuted by `splitText0_overlap_not_exact`:
the splitter only retains whole separator-delimited splits of total
length at most `CHUNK_OVERLAP` and strips surrounding whitespace, so
adjacent chunks share an approximate, not exact, overlap region.) -/
theorem process_documents_chunk_length_bounded (docs : List Document) :
    (process_documents docs).all
      (fun d => d.page_content.length ≤ CHUNK_SIZE) = true := by
  refine List.all_eq_true.2 ?_
  intro c hc
  unfold process_documents at hc
  obtain ⟨d, _, hcd⟩ := List.mem_flatMap.1 hc
  obtain ⟨chunk, hchunk, rfl⟩ := List.mem_map.1 hcd
  exact decide_eq_true (splitText0_bounded _ chunk hchunk)

/-!
## Embeddings and the vector store (`create_vectorstore`, document_loader.py
lines 54-93)

`HuggingFaceEmbeddings` is an external library whose numeric output is
produced by an ML model; the repository code controls only the
configuration it passes (model name, `model_kwargs={'device': 'cpu'}`,
`encode_kwargs={'normalize_embeddings': True}`).  An
`EmbeddingVector` is therefore modelled by its source text together
with whether the encode call was asked to unit-normalize it
(`normalize_embeddings`; the sentence-transformers default when the
kwarg is omitted is `False`).  Whether a backend initialization raises
is modelled by a fault function from configurations to `Option String`
(`none` = the constructor succeeds, `some e` = it raises with message
`e`).
-/

/-- The configuration the code passes to `HuggingFaceEmbeddings`:
model name, the `device` entry of `model_kwargs` (when given), and the
`normalize_embeddings` entry of `encode_kwargs` (when given). -/
structure HFConfig where
  model_name : String
  device : Option String
  normalize_embeddings : Option Bool
deriving DecidableEq, Repr

/-- `EMBEDDING_MODEL` (config.py). -/
def EMBEDDING_MODEL : String := "all-MiniLM-L6-v2"

/-- The primary embedding configuration of `create_vectorstore` and
`load_vectorstore`: `HuggingFaceEmbeddings(model_name=EMBEDDING_MODEL,
model_kwargs={'device': 'cpu'}, encode_kwargs={'normalize_embeddings':
True})`. -/
def primaryEmbedConfig : HFConfig :=
  { model_name := EMBEDDING_MODEL, device := some "cpu", normalize_embeddings := some true }

/-- The fallback embedding configuration, used after the primary
initialization raises: `HuggingFaceEmbeddings(model_name=
"all-MiniLM-L6-v2")` — note that no `encode_kwargs` are passed, so
normalization is not requested. -/
def fallbackEmbedConfig : HFConfig :=
  { model_name := "all-MiniLM-L6-v2", device := none, normalize_embeddings := none }

/-- The sentence-transformers default for `normalize_embeddings` when
the kwarg is omitted. -/
def defaultNormalize : Bool := false

/-- An embedding vector at the repository's boundary: the text it was
computed from and whether the encode call was configured to
unit-normalize it. -/
structure EmbeddingVector where
  source : Text
  normalized : Bool
deriving DecidableEq, Repr

/-- Embed one document's content under a configuration. -/
def embedDocument (cfg : HFConfig) (d : Document) : EmbeddingVector :=
  { source := d.page_content, normalized := cfg.normalize_embeddings.getD defaultNormalize }

/-- One entry of the FAISS store: the chunk and its embedding vector. -/
structure IndexEntry where
  chunk : Document
  vector : EmbeddingVector
deriving DecidableEq, Repr

/-- The FAISS vector store: one entry per input chunk, in order, plus
the embedding configuration it was built with. -/
structure VectorStore where
  entries : List IndexEntry
  config : HFConfig
deriving DecidableEq, Repr

/-- `FAISS.from_documents(documents=..., embedding=...)`: embed every
document once, in order. -/
def FAISS_from_documents (cfg : HFConfig) (documents : List Document) : VectorStore :=
  { entries := documents.map (fun d => { chunk := d, vector := embedDocument cfg d }),
    config := cfg }

/-!
## Index persistence (document_loader.py lines 96-160)

`save_local` writes two companion artifacts under `FAISS_INDEX_PATH`
(`healthcare_index.faiss` holding the vector data and
`healthcare_index.pkl` holding the docstore/metadata);
`reset_vectorstore` removes each file if it exists.  The disk is
modelled as the two optional artifacts; each primitive file operation
takes a fault parameter (`none` = succeeds, `some e` = raises `e`, as a
disk write or remove may). -/
structure FS where
  faiss : Option VectorStore
  pkl : Option VectorStore
deriving DecidableEq, Repr

/-- `FAISS.save_local(FAISS_INDEX_PATH)`: write the `.faiss` artifact,
then the `.pkl` artifact, as two independent sequential operations;
`f0`/`f1` are the respective fault modes.  Returns the disk state
reached and the exception, if one was raised. -/
def save_local (f0 f1 : Option String) (v : VectorStore) (fs : FS) : FS × Option String :=
  match f0 with
  | some e => (fs, some e)
  | none =>
    match f1 with
    | some e => ({ fs with faiss := some v }, some e)
    | none => ({ faiss := some v, pkl := some v }, none)

/-- `save_vectorstore` (document_loader.py lines 96-107): try
`save_local`; report success, or catch the exception and report an
error message. -/
def save_vectorstore (f0 f1 : Option String) (v : VectorStore) (fs : FS) : FS × List Msg :=
  match save_local f0 f1 v fs with
  | (fs', none) => (fs', [.success "Vector index saved successfully!"])
  | (fs', some e) => (fs', [.error ("Error saving vector index: " ++ e)])

/-- `reset_vectorstore` (document_loader.py lines 144-160): remove the
`.faiss` file if it exists, then the `.pkl` file if it exists; report
success and return `True`, or catch the first exception (`fFaiss` /
`fPkl` are the fault modes of the two removes), report an error and
return `False`. -/
def reset_vectorstore (fFaiss fPkl : Option String) (fs : FS) : FS × Bool × List Msg :=
  match fs.faiss with
  | some _ =>
    match fFaiss with
    | some e => (fs, false, [.error ("Error resetting vector index: " ++ e)])
    | none =>
      match fs.pkl with
      | some _ =>
        match fPkl with
        | some e => ({ fs with faiss := none }, false,
            [.error ("Error resetting vector index: " ++ e)])
        | none => ({ faiss := none, pkl := none }, true,
            [.success "Vector index reset successfully!"])
      | none => ({ fs with faiss := none }, true,
          [.success "Vector index reset successfully!"])
  | none =>
    match fs.pkl with
    | some _ =>
      match fPkl with
      | some e => (fs, false, [.error ("Error resetting vector index: " ++ e)])
      | none => ({ fs with pkl := none }, true,
          [.success "Vector index reset successfully!"])
    | none => (fs, true, [.success "Vector index reset successfully!"])

/-- A concrete vector store for counterexamples. -/
def sampleStore : VectorStore := FAISS_from_documents primaryEmbedConfig []

/-- Claim C3 as stated by the spec: the two index artifacts are always
updated or removed together — a save either updates both artifacts to
the saved store or leaves the disk unchanged, and a reset starting from
two present artifacts never ends with exactly one of them removed. -/
def claimC3Prop : Prop :=
  (∀ (f0 f1 : Option String) (v : VectorStore) (fs : FS),
      (save_vectorstore f0 f1 v fs).1 = fs
        ∨ ((save_vectorstore f0 f1 v fs).1.faiss = some v
            ∧ (save_vectorstore f0 f1 v fs).1.pkl = some v))
  ∧ ∀ (fFaiss fPkl : Option String) (fs : FS),
      fs.faiss.isSome → fs.pkl.isSome →
      ¬(((reset_vectorstore fFaiss fPkl fs).1.faiss = none
            ∧ ((reset_vectorstore fFaiss fPkl fs).1.pkl).isSome)
        ∨ (((reset_vectorstore fFaiss fPkl fs).1.faiss).isSome
            ∧ (reset_vectorstore fFaiss fPkl fs).1.pkl = none))

/-- C3 (counterexample): the two artifacts are written and removed by
two independent sequential file operations.  When removing the `.pkl`
file raises after the `.faiss` file was already removed,
`reset_vectorstore` leaves exactly one artifact on disk (and a save
whose second write fails updates only the vector-data artifact), so the
pair is not atomic. -/
theorem persistence_not_atomic : ¬ claimC3Prop := by
  intro h
  exact h.2 none (some "disk full") ⟨some sampleStore, some sampleStore⟩
    (by decide) (by decide) (by decide)

/-- C3 (amended, proved): `save_vectorstore` and `reset_vectorstore`
handle the two artifacts as two sequential independent operations.
When no file operation fails, both artifacts are updated (resp.
removed) together; when the first operation fails nothing is changed;
but when only the second operation fails, the vector-data artifact is
updated (resp. removed) while the chunk/metadata artifact keeps its
previous contents — caller-visible atomicity does not hold. -/
theorem save_reset_artifact_behavior (v : VectorStore) (fs : FS) (e : String)
    (f : Option String) :
    save_vectorstore none none v fs
        = ({ faiss := some v, pkl := some v }, [Msg.success "Vector index saved successfully!"])
    ∧ save_vectorstore (some e) f v fs
        = (fs, [Msg.error ("Error saving vector index: " ++ e)])
    ∧ save_vectorstore none (some e) v fs
        = ({ fs with faiss := some v }, [Msg.error ("Error saving vector index: " ++ e)])
    ∧ (reset_vectorstore none none fs).1 = { faiss := none, pkl := none }
    ∧ ∀ w w' : VectorStore,
        reset_vectorstore none (some e) ⟨some w, some w'⟩
          = (⟨none, some w'⟩, false, [Msg.error ("Error resetting vector index: " ++ e)]) := by
  refine ⟨rfl, rfl, rfl, ?_, fun w w' => rfl⟩
  rcases fs with ⟨_ | _, _ | _⟩ <;> rfl

/-- C6 (confirmed): fault-free `reset_vectorstore` is idempotent: from
any starting state of the two artifacts the call succeeds (returns
`True`) and leaves both artifacts absent, and a second call — in
particular any call when the artifacts are already absent — also
succeeds while changing nothing. -/
theorem reset_vectorstore_idempotent (fs : FS) :
    (reset_vectorstore none none fs).2.1 = true
    ∧ (reset_vectorstore none none fs).1 = { faiss := none, pkl := none }
    ∧ reset_vectorstore none none ((reset_vectorstore none none fs).1)
        = ({ faiss := none, pkl := none }, true,
            [Msg.success "Vector index reset successfully!"]) := by
  rcases fs with ⟨_ | _, _ | _⟩ <;> exact ⟨rfl, rfl, rfl⟩

/-- The build-and-save tail shared by both branches of
`create_vectorstore`: `FAISS.from_documents` with the chosen
configuration, then `save_vectorstore` when `save_local` is set
(`sf0`/`sf1` are the fault modes of the two artifact writes); `msgs`
are the messages already emitted. -/
def buildAndSave (cfg : HFConfig) (sf0 sf1 : Option String) (documents : List Document)
    (save_local_flag : Bool) (fs : FS) (msgs : List Msg) :
    Option VectorStore × FS × List Msg :=
  if save_local_flag then
    (some (FAISS_from_documents cfg documents),
     (save_vectorstore sf0 sf1 (FAISS_from_documents cfg documents) fs).1,
     msgs ++ (save_vectorstore sf0 sf1 (FAISS_from_documents cfg documents) fs).2)
  else (some (FAISS_from_documents cfg documents), fs, msgs)

/-- `create_vectorstore` (document_loader.py lines 54-93): try the
primary embedding configuration; if its initialization raises, report
the error and try exactly one fallback configuration; if that also
raises, report and return `None`.  `initErr` tells which configurations
raise on construction. -/
def create_vectorstore (initErr : HFConfig → Option String) (sf0 sf1 : Option String)
    (documents : List Document) (save_local_flag : Bool) (fs : FS) :
    Option VectorStore × FS × List Msg :=
  match initErr primaryEmbedConfig with
  | none => buildAndSave primaryEmbedConfig sf0 sf1 documents save_local_flag fs []
  | some e =>
    match initErr fallbackEmbedConfig with
    | none =>
      buildAndSave fallbackEmbedConfig sf0 sf1 documents save_local_flag fs
        [.error ("Error creating vector store: " ++ e),
         .info "Trying alternative embedding initialization..."]
    | some e2 =>
      (none, fs,
       [.error ("Error creating vector store: " ++ e),
        .info "Trying alternative embedding initialization...",
        .error ("Fallback embedding initialization also failed: " ++ e2)])

/-- A fault assignment that distinguishes only the two configurations
`create_vectorstore` actually constructs. -/
def cfgErr (e1 e2 : Option String) : HFConfig → Option String :=
  fun c => if c = primaryEmbedConfig then e1
    else if c = fallbackEmbedConfig then e2 else none

/-- A concrete one-character chunk document. -/
def sampleDoc : Document := ⟨['x'], ⟨"data/sample.pdf", 0⟩⟩

/-- Claim C8 as stated by the spec: every successful build — including
one that succeeded only via the fallback configuration — has one vector
per input chunk and only vectors whose encoding was configured to be
unit-normalized. -/
def claimC8Prop : Prop :=
  ∀ (initErr : HFConfig → Option String) (sf0 sf1 : Option String)
    (documents : List Document) (b : Bool) (fs : FS) (v : VectorStore),
    (create_vectorstore initErr sf0 sf1 documents b fs).1 = some v →
    v.entries.length = documents.length
      ∧ ∀ en ∈ v.entries, en.vector.normalized = true

/-- C8 (counterexample): when the primary embedding initialization
raises, the fallback configuration `HuggingFaceEmbeddings(model_name=
"all-MiniLM-L6-v2")` is constructed without `encode_kwargs`, so
`normalize_embeddings` keeps its library default `False`: the build
succeeds but its vectors are not configured to be normalized. -/
theorem create_vectorstore_fallback_not_normalized : ¬ claimC8Prop := by
  intro h
  have hbuild := h (cfgErr (some "meta tensor error") none) none none [sampleDoc] false
    ⟨none, none⟩ (FAISS_from_documents fallbackEmbedConfig [sampleDoc]) (by decide)
  exact absurd
    (hbuild.2 ⟨sampleDoc, embedDocument fallbackEmbedConfig sampleDoc⟩ (by decide))
    (by decide)

/-- C8 (amended, proved): every successful `create_vectorstore` build
computes exactly one embedding vector per input chunk, in input order;
the vectors are configured to be unit-normalized
(`normalize_embeddings=True`) exactly when the primary configuration
succeeded, while a build that succeeded only via the fallback
configuration leaves `normalize_embeddings` at the library default
`False`. -/
theorem create_vectorstore_one_vector_per_chunk (e1 e2 : Option String)
    (sf0 sf1 : Option String) (documents : List Document) (b : Bool) (fs : FS) :
    ((create_vectorstore (cfgErr e1 e2) sf0 sf1 documents b fs).1).map
        (fun v => (v.entries.map (fun en => en.chunk),
                   v.entries.map (fun en => en.vector.normalized)))
      = match e1 with
        | none => some (documents, documents.map (fun _ => true))
        | some _ =>
          match e2 with
          | none => some (documents, documents.map (fun _ => false))
          | some _ => none := by
  cases e1 <;> cases e2 <;> cases b <;>
    simp [create_vectorstore, cfgErr, buildAndSave, FAISS_from_documents, embedDocument,
      primaryEmbedConfig, fallbackEmbedConfig, defaultNormalize, List.map_map,
      Function.comp_def]

/-!
## Vector-store setup in `main` (main.py lines 103-168)

When the session has no cached vector store, `main` first tries
`load_vectorstore`; if absent it ingests `DATA_DIR`, warns when no
documents were found, otherwise builds and saves a store; finally, if
no store was produced it falls back to building a simplified mock store
from a built-in test document and puts that into the session.
`load_vectorstore` (document_loader.py lines 110-141) is modelled for
the states this flow reaches: an absent `.faiss` artifact yields
`None` silently; a present artifact pair loads the stored content; a
present `.faiss` with a missing `.pkl` makes `FAISS.load_local` raise,
and the one fallback reload attempt fails the same way.  Deserialize
failures of well-formed artifact pairs are not modelled, and disk
writes during this flow are assumed not to raise.
-/

/-- `DATA_DIR` (config.py): the ingestion directory, `BASE_DIR/data`
(the absolute base prefix is abstracted away). -/
def DATA_DIR : String := "data"

def load_vectorstore (fs : FS) : Option VectorStore × List Msg :=
  match fs.faiss with
  | none => (none, [])
  | some v =>
    match fs.pkl with
    | some _ => (some v, [.success "Loaded existing vector index!"])
    | none =>
      (none, [.error "Error loading vector index: missing docstore artifact",
              .info "Trying alternative embedding initialization for loading...",
              .error "Fallback loading also failed: missing docstore artifact"])

/-- The embedding configuration of the mock-store fallback in `main`:
`HuggingFaceEmbeddings(model_name="all-MiniLM-L6-v2",
model_kwargs={'device': 'cpu'})`, again without `encode_kwargs`. -/
def mockEmbedConfig : HFConfig :=
  { model_name := "all-MiniLM-L6-v2", device := some "cpu", normalize_embeddings := none }

/-- The built-in test document of `main`'s mock fallback. -/
def mockDoc : Document :=
  { page_content := "This is a test document for healthcare database requests.".data,
    metadata := { source := "", page := 0 } }

/-- The simplified mock vector store `main` builds when no proper store
could be created. -/
def mockVectorstore : VectorStore := FAISS_from_documents mockEmbedConfig [mockDoc]

/-- The mock-store fallback block of `main` (lines 122-144): warn, then
build the simplified store (unless even that raises, `mockErr`). -/
def mockBranch (mockErr : Option String) (fs : FS) (m : List Msg) :
    Option VectorStore × FS × List Msg :=
  match mockErr with
  | none =>
    (some mockVectorstore, fs,
     m ++ [.warning "Could not create a proper vector database. Using a simplified version for testing.",
           .info "Using simplified vector database for basic functionality."])
  | some e =>
    (none, fs,
     m ++ [.warning "Could not create a proper vector database. Using a simplified version for testing.",
           .error ("Could not create even a simplified vector database: " ++ e),
           .error "The application cannot function without a vector database."])

/-- The vector-store setup flow of `main` (main.py lines 103-168),
returning the session's vector store (if any), the resulting disk
state, and the emitted messages. -/
def setup_vectorstore (dir : DirState) (initErr : HFConfig → Option String)
    (mockErr : Option String) (fs : FS) : Option VectorStore × FS × List Msg :=
  match load_vectorstore fs with
  | (some v, m0) => (some v, fs, m0)
  | (none, m0) =>
    match load_documents dir with
    | (docs, m2) =>
      if docs = [] then
        mockBranch mockErr fs
          (m0 ++ [.info "Attempting to load documents"] ++ m2
            ++ [.warning ("No documents found in " ++ DATA_DIR ++ ". Please check the path.")])
      else
        match create_vectorstore initErr none none (process_documents docs) true fs with
        | (some v, fs', m4) =>
          (some v, fs', m0 ++ [.info "Attempting to load documents"] ++ m2 ++ m4)
        | (none, fs', m4) =>
          mockBranch mockErr fs' (m0 ++ [.info "Attempting to load documents"] ++ m2 ++ m4)

/-- Claim C5 as stated by the spec: after ingesting a directory with
zero matching files the system reports that no documents were found and
leaves the session without any vector store. -/
def claimC5Prop : Prop :=
  ∀ (initErr : HFConfig → Option String) (mockErr : Option String),
    (setup_vectorstore (DirState.readable []) initErr mockErr ⟨none, none⟩).1 = none
    ∧ Msg.warning ("No documents found in " ++ DATA_DIR ++ ". Please check the path.")
        ∈ (setup_vectorstore (DirState.readable []) initErr mockErr ⟨none, none⟩).2.2

/-- C5 (counterexample): when ingestion finds no documents `main` does
not leave the session without an index — its fallback block builds the
simplified mock vector store from the built-in test document and stores
it in the session. -/
theorem empty_ingestion_creates_mock_store : ¬ claimC5Prop := by
  intro h
  exact absurd (h (fun _ => none) none).1 (by decide)

/-- C5 (amended, proved): ingesting a directory with zero matching
files yields the empty document sequence, skips the real index build
(the embedding initializer is never consulted and the disk keeps both
artifacts absent — nothing is persisted), and reports "No documents
found"; but the session does not remain in the Absent state: the mock
fallback stores a simplified vector store built from a test document
(or, when even the mock build raises, reports errors and stores
nothing). -/
theorem setup_vectorstore_empty_ingestion (initErr : HFConfig → Option String)
    (mockErr : Option String) :
    setup_vectorstore (DirState.readable []) initErr mockErr ⟨none, none⟩
      = mockBranch mockErr ⟨none, none⟩
          [Msg.info "Attempting to load documents",
           Msg.warning ("No documents found in " ++ DATA_DIR ++ ". Please check the path.")]
    ∧ (mockBranch mockErr ⟨none, none⟩
          [Msg.info "Attempting to load documents",
           Msg.warning ("No documents found in " ++ DATA_DIR ++ ". Please check the path.")]).1
        = match mockErr with
          | none => some mockVectorstore
          | some _ => none := by
  refine ⟨rfl, ?_⟩
  cases mockErr <;> rfl

/-!
## API-key validation (`validate_api_key`, api_validator.py lines 10-30)

The generation backend constructor `ChatGoogleGenerativeAI` is modelled
by `backendInit`, mapping the candidate key to `none` (construction
succeeds) or `some e` (it raises `e`).  The third component of the
result counts how many backend constructions were attempted. -/
def validate_api_key (backendInit : String → Option String) (api_key : String) :
    (Bool × Option String) × Nat :=
  if api_key.isEmpty then ((false, some "API key is empty"), 0)
  else
    match backendInit api_key with
    | none => ((true, none), 1)
    | some e => ((false, some e), 1)

/-- C7 (confirmed): validating the empty secret returns
`(False, "API key is empty")` immediately, with zero backend
initialization attempts (hence no network call), for every backend
behavior. -/
theorem validate_api_key_empty (backendInit : String → Option String) :
    validate_api_key backendInit "" = ((false, some "API key is empty"), 0) := rfl

/-!
## Action-type extraction and request history (main.py lines 170-205)

After a successful `retrieval_chain.invoke`, `main` extracts the action
type from the response text with Python string scanning:
`find("Action Type:")`, `find("\n", action_start)` and a slice — where
a missing line break makes `find` return `-1`, so the slice
`[action_start:-1]` drops the final character of the string.  The pair
`(input_text, action_type)` is then appended to the session history.
-/

/-- The `"Action Type:"` label. -/
def actionLabel : Text := "Action Type:".data

/-- The `"ERROR:"` marker of the sentinel validation response. -/
def errLabel : Text := "ERROR:".data

/-- The sentinel error string fixed by the prompt template
(llm_chain.py line 49). -/
def sentinelText : Text :=
  "ERROR: The request mentions entities that do not exist in the database schema. Please verify your request and try again.".data

/-- Python `str.find` scan: the absolute index of the first occurrence
of `sub` in the remaining text `l`, where `i` is the absolute index of
the head of `l`. -/
def findSubAux (sub : Text) : Text → Nat → Option Nat
  | [], i => if sub.isEmpty then some i else none
  | c :: rest, i =>
    if sub.isPrefixOf (c :: rest) then some i else findSubAux sub rest (i + 1)

/-- Python `hay.find(sub)`, with `none` standing for `-1`. -/
def findSub (hay sub : Text) : Option Nat := findSubAux sub hay 0

/-- Python `hay.find(sub, start)`, with `none` standing for `-1`. -/
def findSubFrom (hay sub : Text) (start : Nat) : Option Nat :=
  (findSub (hay.drop start) sub).map (· + start)

/-- `action_start` (main.py line 183): the position just after the
first occurrence of the label. -/
def labelStart (answer : Text) : Nat :=
  (findSub answer actionLabel).getD 0 + actionLabel.length

/-- The action-type extraction of `main` (main.py lines 181-187):
`"Unknown"` by default; when the label occurs, the slice
`answer[action_start:answer.find("\n", action_start)]`, stripped —
note that when no line break follows, Python's `find` returns `-1` and
the slice ends one character before the end of the string; when the
label is absent but `"ERROR:"` occurs, `"Error"`. -/
def extract_action_type (answer : Text) : Text :=
  if containsSeq actionLabel answer then
    match findSubFrom answer sepLine (labelStart answer) with
    | some i => stripText ((answer.take i).drop (labelStart answer))
    | none => stripText ((answer.take (answer.length - 1)).drop (labelStart answer))
  else if containsSeq errLabel answer then "Error".data
  else "Unknown".data

/-- The extraction as claim C9 words it: the substring following the
`"Action Type:"` label up to the next line break (to the end of the
string when none follows), with surrounding whitespace trimmed;
`"Unknown"` whenever the label is absent. -/
def spec_action_type (answer : Text) : Text :=
  match findSub answer actionLabel with
  | none => "Unknown".data
  | some i =>
    stripText ((answer.drop (i + actionLabel.length)).takeWhile (fun c => c ≠ '\n'))

/-- Claim C9 as stated by the spec. -/
def claimC9Prop : Prop :=
  ∀ answer : Text, extract_action_type answer = spec_action_type answer

/-- C9 (counterexample): on `"Action Type: Update"` — the label on the
final line with no trailing line break — the code extracts `"Updat"`
(the `find`-returned `-1` slice drops the last character), not
`"Update"`; and on `"ERROR: bad request"` — label absent — the code
records `"Error"`, not `"Unknown"`. -/
theorem extract_action_type_diverges_from_spec : ¬ claimC9Prop := by
  intro h
  exact absurd (h "Action Type: Update".data) (by decide)

/-- The extraction as the code actually behaves, worded from the
amended claim: locate the first `"Action Type:"` occurrence and take
the following text up to the next line break, trimmed — except that
when no line break follows, the final character of the text is dropped
before trimming; when the label is absent the result is `"Error"` if
the text contains `"ERROR:"` and `"Unknown"` otherwise. -/
def amended_action_type (answer : Text) : Text :=
  match findSub answer actionLabel with
  | none => if containsSeq errLabel answer then "Error".data else "Unknown".data
  | some i =>
    if containsSeq sepLine (answer.drop (i + actionLabel.length)) then
      stripText ((answer.drop (i + actionLabel.length)).takeWhile (fun c => c ≠ '\n'))
    else
      stripText ((answer.drop (i + actionLabel.length)).take
        ((answer.drop (i + actionLabel.length)).length - 1))

/-- `findSubAux` succeeds exactly when the pattern occurs. -/
theorem findSubAux_isSome (sub : Text) :
    ∀ (l : Text) (i : Nat), (findSubAux sub l i).isSome = containsSeq sub l := by
  intro l
  induction l with
  | nil =>
    intro i
    rw [findSubAux, containsSeq]
    split <;> simp_all
  | cons c rest ih =>
    intro i
    rw [findSubAux, containsSeq]
    split
    · simp_all
    · rename_i hp
      have hp' : sub.isPrefixOf (c :: rest) = false := by
        revert hp
        cases sub.isPrefixOf (c :: rest) <;> simp
      simp [hp', ih]

/-- A successful `findSubAux` result is at least the starting index and
leaves room for the whole pattern. -/
theorem findSubAux_le_and_fit (sub : Text) :
    ∀ (l : Text) (i j : Nat), findSubAux sub l i = some j →
      i ≤ j ∧ j - i + sub.length ≤ l.length := by
  intro l
  induction l with
  | nil =>
    intro i j h
    rw [findSubAux] at h
    split at h
    · rename_i he
      cases h
      simp_all [List.isEmpty_iff]
    · cases h
  | cons c rest ih =>
    intro i j h
    rw [findSubAux] at h
    split at h
    · rename_i hp
      cases h
      refine ⟨Nat.le_refl _, ?_⟩
      have hpre := List.isPrefixOf_iff_prefix.1 hp
      have := hpre.length_le
      simp only [Nat.sub_self, Nat.zero_add]
      exact this
    · have := ih (i + 1) j h
      have hlen : (c :: rest).length = rest.length + 1 := rfl
      omega

/-- For a single-character pattern, the prefix before the first
occurrence is exactly the `takeWhile` of the character's complement. -/
theorem findSubAux_singleton_take (c : Char) :
    ∀ (l : Text) (i j : Nat), findSubAux [c] l i = some j →
      l.take (j - i) = l.takeWhile (fun a => a ≠ c) := by
  intro l
  induction l with
  | nil =>
    intro i j h
    simp [findSubAux, List.isEmpty] at h
  | cons d rest ih =>
    intro i j h
    rw [findSubAux] at h
    split at h
    · rename_i hp
      cases h
      have hcd : c = d := by simpa [List.isPrefixOf] using hp
      simp [List.takeWhile_cons, ← hcd]
    · rename_i hp
      have hne : ¬(d = c) := fun he => hp (by simp [List.isPrefixOf, he])
      have hij := findSubAux_le_and_fit [c] rest (i + 1) j h
      have ihr := ih (i + 1) j h
      have hji : j - i = (j - (i + 1)) + 1 := by omega
      rw [hji, List.take_succ_cons, List.takeWhile_cons]
      simp [hne, ihr]

/-- C9 (amended, proved): the extraction equals the amended
specification on every response text: text after the first label
occurrence up to the next line break, trimmed, except that with no
following line break the final character is dropped before trimming;
with the label absent, `"Error"` when the text contains `"ERROR:"` and
`"Unknown"` otherwise. -/
theorem extract_action_type_amended_eq (answer : Text) :
    extract_action_type answer = amended_action_type answer := by
  unfold extract_action_type amended_action_type
  cases hfs : findSub answer actionLabel with
  | none =>
    have hc : containsSeq actionLabel answer = false := by
      have h := findSubAux_isSome actionLabel answer 0
      rw [show findSubAux actionLabel answer 0 = findSub answer actionLabel from rfl,
        hfs] at h
      simpa using h.symm
    simp [hc]
  | some i0 =>
    have hc : containsSeq actionLabel answer = true := by
      have h := findSubAux_isSome actionLabel answer 0
      rw [show findSubAux actionLabel answer 0 = findSub answer actionLabel from rfl,
        hfs] at h
      simpa using h.symm
    have hstart : labelStart answer = i0 + actionLabel.length := by
      simp [labelStart, hfs]
    rw [hc]
    simp only [if_true]
    cases hnl : findSub (answer.drop (i0 + actionLabel.length)) sepLine with
    | none =>
      have hnc : containsSeq sepLine (answer.drop (i0 + actionLabel.length)) = false := by
        have h := findSubAux_isSome sepLine (answer.drop (i0 + actionLabel.length)) 0
        rw [show findSubAux sepLine (answer.drop (i0 + actionLabel.length)) 0
            = findSub (answer.drop (i0 + actionLabel.length)) sepLine from rfl, hnl] at h
        simpa using h.symm
      rw [findSubFrom, hstart, hnl]
      simp only [Option.map_none', hnc, if_false]
      rw [List.drop_take]
      have hlen : (answer.drop (i0 + actionLabel.length)).length - 1
          = answer.length - 1 - (i0 + actionLabel.length) := by
        rw [List.length_drop]
        omega
      rw [hlen]
      simp
    | some j =>
      have hnc : containsSeq sepLine (answer.drop (i0 + actionLabel.length)) = true := by
        have h := findSubAux_isSome sepLine (answer.drop (i0 + actionLabel.length)) 0
        rw [show findSubAux sepLine (answer.drop (i0 + actionLabel.length)) 0
            = findSub (answer.drop (i0 + actionLabel.length)) sepLine from rfl, hnl] at h
        simpa using h.symm
      rw [findSubFrom, hstart, hnl]
      simp only [Option.map_some', hnc, if_true]
      rw [List.drop_take]
      have htake : j + (i0 + actionLabel.length) - (i0 + actionLabel.length) = j := by omega
      rw [htake]
      have hw := findSubAux_singleton_take '\n'
        (answer.drop (i0 + actionLabel.length)) 0 j
        (by rw [show ([('\n' : Char)] : Text) = sepLine from rfl]; exact hnl)
      exact congrArg stripText (by simpa using hw)

/-- The outcome of `retrieval_chain.invoke({"input": input_text})`:
either a response text, or a raised `ValueError` (API-key problems), or
any other exception. -/
inductive InvokeResult where
  | ok (answer : Text)
  | valueError (msg : String)
  | otherError (msg : String)
deriving DecidableEq, Repr

/-- The request-processing block of `main` (main.py lines 170-205): on
a successful invoke, extract the action type and append exactly one
`(input_text, action_type)` pair to the session history; on an
exception, report it and leave the history untouched. -/
def process_request (history : List (Text × Text)) (input_text : Text)
    (result : InvokeResult) : List (Text × Text) × List Msg :=
  match result with
  | .ok answer => (history ++ [(input_text, extract_action_type answer)], [])
  | .valueError m => (history, [.error ("API Key Error: " ++ m)])
  | .otherError m => (history, [.error ("An error occurred: " ++ m)])

/-- C10 (confirmed): a request submission that completes without
raising appends exactly one `(request, action type)` pair to the
session history — the previous history is preserved as a prefix, so
nothing is removed or reordered and the length grows by exactly one —
while a submission that raises leaves the history unchanged; a
sentinel-error response (containing `"ERROR:"` and no
`"Action Type:"` label) is recorded with action type `"Error"`. -/
theorem process_request_appends_one (history : List (Text × Text)) (input_text : Text)
    (answer : Text) (m : String) :
    process_request history input_text (.ok answer)
        = (history ++ [(input_text, extract_action_type answer)], [])
    ∧ (process_request history input_text (.ok answer)).1.length = history.length + 1
    ∧ (process_request history input_text (.ok answer)).1.take history.length = history
    ∧ (process_request history input_text (.valueError m)).1 = history
    ∧ (process_request history input_text (.otherError m)).1 = history
    ∧ (containsSeq actionLabel answer = false → containsSeq errLabel answer = true →
        extract_action_type answer = "Error".data) := by
  refine ⟨rfl, by simp [process_request], ?_, rfl, rfl, ?_⟩
  · simp only [process_request]
    exact List.take_left ..
  · intro h1 h2
    unfold extract_action_type
    simp [h1, h2]

/-- C10 (witness): processing the sentinel validation response on an
empty history appends exactly the pair recording action type
`"Error"`. -/
theorem process_request_appends_one_witness :
    extract_action_type sentinelText = "Error".data
      ∧ process_request [] [] (InvokeResult.ok sentinelText)
          = ([(([] : Text), "Error".data)], []) := by
  have h := process_request_appends_one [] [] sentinelText ""
  have he := h.2.2.2.2.2 (by decide) (by decide)
  exact ⟨he, by rw [h.1, he]; rfl⟩
